import Mathlib

/-!
Shallow embedding of the core of the `unleash-client-python` repository:
the `UnleashClient` class (`UnleashClient/__init__.py`) and the
`GradualRolloutSessionId` strategy
(`UnleashClient/strategies/GradualRolloutSessionId.py`), together with
theorems settling the specification's claims about them.

Python dictionaries are modelled as association lists of string keys;
`dict[k] = v` is `dictSet`, `dict.update(other)` is `dictUpdate`, and the
`{**a, **b}` merge is `pyDictMerge`.  Python exceptions are modelled with
`Except String`.  Mutation of `self` and of caller-supplied dictionaries is
modelled by explicit state passing: each embedded method returns the updated
state alongside its result.
-/

/-- A Python `dict` with string keys, as an association list. -/
abbrev PyDict (α : Type) := List (String × α)

/-- A context dictionary (`context` in the Python source). -/
abbrev Context := PyDict String

/-- Python dictionary lookup `d[k]` (as an `Option`; `none` is a `KeyError`). -/
def alookup {α : Type} (k : String) : PyDict α → Option α
  | [] => none
  | (k', v) :: rest => if k' = k then some v else alookup k rest

/-- Python dictionary assignment `d[k] = v`: overwrite the existing binding
for `k` when there is one (keys are unique in a Python dict), otherwise
append a new binding. -/
def dictSet {α : Type} : PyDict α → String → α → PyDict α
  | [], k, v => [(k, v)]
  | (k', v') :: rest, k, v =>
      if k' = k then (k, v) :: rest else (k', v') :: dictSet rest k v

/-- Python `d.update(other)`: assign every binding of `other` into `d`,
`other`'s values overwriting `d`'s on shared keys. -/
def dictUpdate {α : Type} (d other : PyDict α) : PyDict α :=
  other.foldl (fun acc kv => dictSet acc kv.1 kv.2) d

/-- The Python dict-literal merge `{**a, **b}`: start from `a`'s bindings and
assign `b`'s over them, so `b` wins on shared keys. -/
def pyDictMerge {α : Type} (a b : PyDict α) : PyDict α :=
  b.foldl (fun acc kv => dictSet acc kv.1 kv.2) a

theorem alookup_dictSet_self {α : Type} (d : PyDict α) (k : String) (v : α) :
    alookup k (dictSet d k v) = some v := by
  induction d with
  | nil => simp [dictSet, alookup]
  | cons p rest ih =>
    obtain ⟨k', v'⟩ := p
    by_cases hk : k' = k
    · simp [dictSet, alookup, hk]
    · simp [dictSet, alookup, hk, ih]

theorem alookup_dictSet_ne {α : Type} (d : PyDict α) (k k' : String) (v : α)
    (h : k' ≠ k) : alookup k' (dictSet d k v) = alookup k' d := by
  induction d with
  | nil => simp [dictSet, alookup, Ne.symm h]
  | cons p rest ih =>
    obtain ⟨k₀, v₀⟩ := p
    by_cases hk : k₀ = k
    · subst hk
      simp [dictSet, alookup, Ne.symm h]
    · by_cases hk' : k₀ = k'
      · simp [dictSet, alookup, hk, hk', h]
      · simp [dictSet, alookup, hk, hk', ih]

/-- `dictUpdate` with a two-entry dictionary is two assignments in order. -/
theorem dictUpdate_pair {α : Type} (d : PyDict α) (k₁ k₂ : String) (v₁ v₂ : α) :
    dictUpdate d [(k₁, v₁), (k₂, v₂)] = dictSet (dictSet d k₁ v₁) k₂ v₂ := rfl

/-! ## HashBucketing

`normalized_hash` lives in `UnleashClient/utils.py`, which is not under
`src/`; only its caller `GradualRolloutSessionId` is.  It is therefore
modelled from the spec below, and the strategy embedding is additionally kept
parametric in the hash so that theorems about the comparison direction hold
for every hash function. -/

/-- Modelled from the spec: `UnleashClient.utils.normalized_hash`
(`utils.py` is not under `src/`).  Spec §4.1: "hash the concatenation of
groupId and identifier with a stable, non-cryptographic hash (e.g. 32-bit
checksum) and reduce modulo 100", yielding an integer in `[0, 100)`.  A
byte-sum checksum stands in for the concrete stable hash. -/
def normalized_hash (identifier group_id : String) : Nat :=
  (((group_id ++ ":" ++ identifier).toList.map Char.toNat).sum) % 100

/-- Strategy parameters for the gradual-rollout strategies:
`self.parameters["percentage"]` and `self.parameters["groupId"]`. -/
structure RolloutParameters where
  percentage : Nat
  groupId : String
deriving DecidableEq

/-- Embedding of `GradualRolloutSessionId.__call__`
(`UnleashClient/strategies/GradualRolloutSessionId.py`, lines 6–15),
parametric in the `normalized_hash` function it calls:

    percentage = self.parameters["percentage"]
    activation_group = self.parameters["groupId"]
    return percentage < normalized_hash(context["sessionId"], activation_group)

`context["sessionId"]` raises `KeyError` when absent, hence the `Option`. -/
def GradualRolloutSessionId_call (nh : String → String → Nat)
    (parameters : RolloutParameters) (context : Context) : Option Bool :=
  match alookup "sessionId" context with
  | none => none
  | some session_id =>
      some (decide (parameters.percentage < nh session_id parameters.groupId))

/-! ## The `UnleashClient` class (`UnleashClient/__init__.py`)

External collaborators are modelled at their interface:
* `apscheduler`'s `BackgroundScheduler` as a running-flag plus a job list;
  `start()` on an already-running scheduler raises
  `SchedulerAlreadyRunningError`, `add_job` appends a job.
* `register_client` (an HTTP call in `UnleashClient/api`, not under `src/`)
  as a counter of registration events on the client state.
* `fetch_and_load_features` (`UnleashClient/periodic_tasks`, not under
  `src/`) as replacing `self.features` with a fetched feature set that the
  embedding takes as a parameter.
* the `FileCache` durable store as a `PyDict` of timestamps (`Nat`), with
  `sync()` implicit (the dict _is_ the durable copy).
-/

/-- A scheduled periodic job (`apscheduler.job.Job`): the task it runs and
its interval trigger in seconds. -/
structure Job where
  task : String
  interval_seconds : Nat
deriving DecidableEq

/-- `apscheduler.schedulers.background.BackgroundScheduler`, at the interface
the client uses: whether it has been started, and its jobs. -/
structure Scheduler where
  running : Bool
  jobs : List Job
deriving DecidableEq

/-- Modelled from the spec: a Feature record's evaluation
(`UnleashClient/features/Feature.py` is not under `src/`).  Spec §4.5: look
up the feature and call its evaluation, which may raise (malformed
parameters, missing context field, custom-strategy failure) — modelled as an
`Except`-returning function of the context and default value. -/
structure Feature where
  is_enabled : Context → Bool → Except String Bool

/-- An entry of the strategy mapping: either one of the built-in strategy
classes imported from `UnleashClient.strategies`, or a caller-supplied
custom strategy class, identified by its class name. -/
inductive StrategyRef where
  | builtin (class_name : String)
  | custom (class_name : String)
deriving DecidableEq

/-- Modelled from the spec: `UnleashClient.constants.METRIC_LAST_SENT_TIME`
(`constants.py` is not under `src/`), the durable cache key under which the
last-metrics-sent timestamp is stored. -/
def METRIC_LAST_SENT_TIME : String := "metricLastSentTime"

/-- The `default_strategy_mapping` dict literal built in
`UnleashClient.__init__` (lines 72–80). -/
def default_strategy_mapping : PyDict StrategyRef :=
  [("applicationHostname", .builtin "ApplicationHostname"),
   ("default", .builtin "Default"),
   ("gradualRolloutRandom", .builtin "GradualRolloutRandom"),
   ("gradualRolloutSessionId", .builtin "GradualRolloutSessionId"),
   ("gradualRolloutUserId", .builtin "GradualRolloutUserId"),
   ("remoteAddress", .builtin "RemoteAddress"),
   ("userWithId", .builtin "UserWithId")]

/-- The state of an `UnleashClient` instance. -/
structure UnleashClient where
  unleash_url : String
  unleash_app_name : String
  unleash_environment : String
  unleash_instance_id : String
  unleash_refresh_interval : Nat
  unleash_metrics_interval : Nat
  unleash_disable_metrics : Bool
  unleash_disable_registration : Bool
  unleash_static_context : Context
  cache : PyDict Nat
  features : PyDict Feature
  scheduler : Scheduler
  fl_job : Option Job
  metric_job : Option Job
  strategy_mapping : PyDict StrategyRef
  is_initialized : Bool
  registrations : Nat

/-- `str.rstrip('\\')`: remove trailing backslashes (used on the URL). -/
def rstripBackslash (s : String) : String :=
  String.mk ((s.toList.reverse.dropWhile (· = '\\')).reverse)

/-- Embedding of `UnleashClient.__init__` (lines 21–85).  `prior_cache` is
the on-disk `FileCache` content found at construction, `now` the current
timestamp (`datetime.now(timezone.utc)`).  Line 68 assigns the current time
under `METRIC_LAST_SENT_TIME` and line 69 syncs it to disk. -/
def mkUnleashClient (url app_name : String) (environment : String)
    (instance_id : String) (refresh_interval metrics_interval : Nat)
    (disable_metrics disable_registration : Bool)
    (custom_strategies : PyDict StrategyRef)
    (prior_cache : PyDict Nat) (now : Nat) : UnleashClient :=
  { unleash_url := rstripBackslash url
    unleash_app_name := app_name
    unleash_environment := environment
    unleash_instance_id := instance_id
    unleash_refresh_interval := refresh_interval
    unleash_metrics_interval := metrics_interval
    unleash_disable_metrics := disable_metrics
    unleash_disable_registration := disable_registration
    unleash_static_context :=
      [("appName", app_name), ("environment", environment)]
    cache := dictSet prior_cache METRIC_LAST_SENT_TIME now
    features := []
    scheduler := { running := false, jobs := [] }
    fl_job := none
    metric_job := none
    strategy_mapping := pyDictMerge custom_strategies default_strategy_mapping
    is_initialized := false
    registrations := 0 }

/-- The result of an `is_enabled` call: the returned flag, the
caller-supplied context dictionary after the in-place
`context.update(self.unleash_static_context)` of line 168, and the client
state after the call. -/
structure IsEnabledResult where
  result : Bool
  context : Context
  client : UnleashClient

/-- Embedding of `UnleashClient.is_enabled` (lines 153–180):

    context.update(self.unleash_static_context)
    if self.is_initialized:
        try:
            return self.features[feature_name].is_enabled(context, default_value)
        except Exception: return default_value
    else: return default_value

A missing `feature_name` key raises `KeyError` (`alookup = none`), caught by
the same `except` as an evaluation error. -/
def UnleashClient.is_enabled (c : UnleashClient) (feature_name : String)
    (context : Context) (default_value : Bool) : IsEnabledResult :=
  let ctx := dictUpdate context c.unleash_static_context
  if c.is_initialized then
    match alookup feature_name c.features with
    | none => ⟨default_value, ctx, c⟩
    | some feature =>
        match feature.is_enabled ctx default_value with
        | .ok b => ⟨b, ctx, c⟩
        | .error _ => ⟨default_value, ctx, c⟩
  else ⟨default_value, ctx, c⟩

/-- The shared state behind Python's evaluate-once default arguments: the
single dict created for `context={}` when `is_enabled` was defined, shared
by every call that omits `context`. -/
structure PyWorld where
  is_enabled_default_context : Context

/-- An `is_enabled` call that omits the `context` argument: it uses — and
mutates — the shared default dict in `PyWorld`. -/
def UnleashClient.is_enabled_nocontext (c : UnleashClient) (w : PyWorld)
    (feature_name : String) (default_value : Bool) :
    Bool × PyWorld × UnleashClient :=
  let r := c.is_enabled feature_name w.is_enabled_default_context default_value
  (r.result, ⟨r.context⟩, r.client)

/-- Embedding of `UnleashClient.initialize_client` (lines 87–136),
parametric in the feature set the initial `fetch_and_load_features` call
loads (line 123).  Registration (lines 119–121, skipped when
`unleash_disable_registration`) and the fetch run first; then
`self.scheduler.start()` (line 126) raises `SchedulerAlreadyRunningError`
when the scheduler is already running.  Otherwise the fetch job is added
(lines 127–129), the metrics job is added unless metrics are disabled
(lines 131–134), and `is_initialized` is set (line 136).  A Python
exception propagates to the caller but does not undo the side effects that
already happened, so the embedding returns the client state alongside the
`Except` outcome. -/
def UnleashClient.initialize_client (fetched : PyDict Feature)
    (c : UnleashClient) : Except String Unit × UnleashClient :=
  let c₁ := { c with registrations :=
    if c.unleash_disable_registration then c.registrations
    else c.registrations + 1 }
  let c₂ := { c₁ with features := fetched }
  if c₂.scheduler.running then (.error "SchedulerAlreadyRunningError", c₂)
  else
    let fl : Job := ⟨"fetch_and_load_features", c₂.unleash_refresh_interval⟩
    let mj : Job := ⟨"aggregate_and_send_metrics", c₂.unleash_metrics_interval⟩
    let jobs₁ := c₂.scheduler.jobs ++ [fl]
    let jobs₂ := if c₂.unleash_disable_metrics then jobs₁ else jobs₁ ++ [mj]
    let c₄ := { c₂ with
      scheduler := { running := true, jobs := jobs₂ },
      fl_job := some fl,
      metric_job := if c₂.unleash_disable_metrics then c₂.metric_job
                    else some mj }
    (.ok (), { c₄ with is_initialized := true })

/-- Embedding of `UnleashClient.destroy` (lines 138–150):
`self.fl_job.remove()` raises `AttributeError` when `fl_job` is still
`None`; otherwise both jobs are removed, the scheduler is shut down and the
cache is deleted. -/
def UnleashClient.destroy (c : UnleashClient) : Except String UnleashClient :=
  match c.fl_job with
  | none => .error "AttributeError: NoneType object has no attribute remove"
  | some fl =>
      let c₁ := { c with
        scheduler := { c.scheduler with
          jobs := c.scheduler.jobs.filter (· ≠ fl) }
        fl_job := none }
      let c₂ := match c₁.metric_job with
        | some mj => { c₁ with
            scheduler := { c₁.scheduler with
              jobs := c₁.scheduler.jobs.filter (· ≠ mj) }
            metric_job := none }
        | none => c₁
      .ok { c₂ with
        scheduler := { c₂.scheduler with running := false }
        cache := [] }

/-! ## Helper lemmas -/

theorem alookup_eq_none_of_not_mem {α : Type} (k : String) :
    ∀ d : PyDict α, k ∉ d.map Prod.fst → alookup k d = none := by
  intro d
  induction d with
  | nil => intro _; rfl
  | cons p rest ih =>
    obtain ⟨k', v'⟩ := p
    intro h
    simp only [List.map_cons, List.mem_cons] at h
    push_neg at h
    simp [alookup, Ne.symm h.1, ih h.2]

theorem pyDictMerge_cons {α : Type} (a : PyDict α) (k : String) (v : α)
    (rest : PyDict α) :
    pyDictMerge a ((k, v) :: rest) = pyDictMerge (dictSet a k v) rest := rfl

theorem alookup_pyDictMerge_notin {α : Type} (k : String) :
    ∀ (b a : PyDict α), alookup k b = none →
      alookup k (pyDictMerge a b) = alookup k a := by
  intro b
  induction b with
  | nil => intro a _; rfl
  | cons p rest ih =>
    obtain ⟨k', v'⟩ := p
    intro a h
    by_cases hk : k' = k
    · simp [alookup, hk] at h
    · simp only [alookup, hk, if_false] at h
      rw [pyDictMerge_cons, ih _ h,
          alookup_dictSet_ne _ _ _ _ (fun he => hk he.symm)]

theorem alookup_pyDictMerge_right {α : Type} (k : String) (v : α) :
    ∀ (b a : PyDict α), (b.map Prod.fst).Nodup → alookup k b = some v →
      alookup k (pyDictMerge a b) = some v := by
  intro b
  induction b with
  | nil => intro a _ h; simp [alookup] at h
  | cons p rest ih =>
    obtain ⟨k', v'⟩ := p
    intro a hnd h
    simp only [List.map_cons, List.nodup_cons] at hnd
    by_cases hk : k' = k
    · subst hk
      simp [alookup] at h
      subst h
      rw [pyDictMerge_cons,
          alookup_pyDictMerge_notin _ _ _ (alookup_eq_none_of_not_mem _ _ hnd.1),
          alookup_dictSet_self]
    · simp only [alookup, hk, if_false] at h
      rw [pyDictMerge_cons]
      exact ih _ hnd.2 h

/-- Each branch of `is_enabled` hands back the same post-`update` context. -/
theorem is_enabled_context_eq (c : UnleashClient) (feature_name : String)
    (ctx : Context) (d : Bool) :
    (c.is_enabled feature_name ctx d).context
      = dictUpdate ctx c.unleash_static_context := by
  unfold UnleashClient.is_enabled
  by_cases h : c.is_initialized
  · cases hl : alookup feature_name c.features with
    | none => simp [h, hl]
    | some f =>
      cases he : f.is_enabled (dictUpdate ctx c.unleash_static_context) d with
      | ok b => simp [h, hl, he]
      | error e => simp [h, hl, he]
  · simp [h]

/-- Updating any context with the client's two-field static context pins
`appName` and `environment` to the static values. -/
theorem alookup_update_static (ctx : Context) (a e : String) :
    alookup "appName" (dictUpdate ctx [("appName", a), ("environment", e)])
      = some a ∧
    alookup "environment" (dictUpdate ctx [("appName", a), ("environment", e)])
      = some e := by
  rw [dictUpdate_pair]
  refine ⟨?_, alookup_dictSet_self _ _ _⟩
  rw [alookup_dictSet_ne _ _ _ _ (by decide), alookup_dictSet_self]

/-- A feature whose evaluation always raises. -/
def throwing_feature : Feature := ⟨fun _ _ => .error "custom strategy failure"⟩

/-- An initialized client holding one feature whose evaluation raises, used
to exercise the `except` branch of `is_enabled` on concrete input. -/
def test_client : UnleashClient :=
  { mkUnleashClient "http://localhost:4242" "pytest" "default" "123" 15 60
      false false [] [] 0 with
    is_initialized := true
    features := [("f1", throwing_feature)] }

/-- A freshly constructed client (registration enabled, metrics disabled). -/
def fresh_client : UnleashClient :=
  mkUnleashClient "http://localhost:4242" "pytest" "default" "123" 15 60
    true false [] [] 0

/-! ## Claims -/

/-- C1: the claim states that `gradualRolloutSessionId` evaluates to true if
and only if `normalizedHash(context.sessionId, groupId) < percentage`.  The
source returns `percentage < normalized_hash(context["sessionId"],
activation_group)` — the comparison is inverted, so the two disagree
whenever the hash differs from the percentage.  Concretely, at percentage
50, groupId `"g1"` and sessionId `"s1"` the modelled hash is 74: the code
returns `True` although `74 < 50` fails.  (With the intended semantics a
percentage of 100 would enable everyone; the source disables everyone.) -/
theorem gradualRolloutSessionId_comparison_inverted :
    GradualRolloutSessionId_call normalized_hash ⟨50, "g1"⟩
      [("sessionId", "s1")] = some true ∧
    ¬ normalized_hash "s1" "g1" < 50 := by decide

/-- C2 counterexample: passing a custom strategy under the built-in name
`"default"` does not override the built-in.  `{**custom_strategies,
**default_strategy_mapping}` lets the built-ins overwrite the custom
entries, so the client's strategy mapping still binds `"default"` to the
built-in `Default` class, not to the custom strategy. -/
theorem custom_strategy_collision_counterexample :
    alookup "default"
      (mkUnleashClient "http://localhost:4242" "pytest" "default" "123" 15 60
        false false [("default", .custom "MyDefault")] [] 0).strategy_mapping
      = some (.builtin "Default") ∧
    StrategyRef.builtin "Default" ≠ StrategyRef.custom "MyDefault" := by
  exact ⟨rfl, by decide⟩

/-- C2 amended: on a name collision the built-in strategy wins: every name
bound in `default_strategy_mapping` keeps its built-in binding in the
constructed client's `strategy_mapping`, whatever `custom_strategies`
mapping was passed at construction. -/
theorem strategy_mapping_builtin_wins
    (url app_name environment instance_id : String)
    (refresh_interval metrics_interval : Nat)
    (disable_metrics disable_registration : Bool)
    (custom_strategies : PyDict StrategyRef)
    (prior_cache : PyDict Nat) (now : Nat)
    (name : String) (s : StrategyRef)
    (h : alookup name default_strategy_mapping = some s) :
    alookup name
      (mkUnleashClient url app_name environment instance_id refresh_interval
        metrics_interval disable_metrics disable_registration
        custom_strategies prior_cache now).strategy_mapping = some s := by
  show alookup name (pyDictMerge custom_strategies default_strategy_mapping)
    = some s
  exact alookup_pyDictMerge_right name s default_strategy_mapping
    custom_strategies (by decide) h

/-- Closed instance of `strategy_mapping_builtin_wins`: even with a custom
strategy colliding on `"default"`, the mapping keeps the built-in
`UserWithId` under `"userWithId"`. -/
theorem strategy_mapping_builtin_wins_witness :
    alookup "userWithId"
      (mkUnleashClient "http://localhost:4242" "pytest" "default" "123" 15 60
        false false [("default", .custom "MyDefault")] [] 0).strategy_mapping
      = some (.builtin "UserWithId") :=
  strategy_mapping_builtin_wins "http://localhost:4242" "pytest" "default"
    "123" 15 60 false false [("default", .custom "MyDefault")] [] 0
    "userWithId" (.builtin "UserWithId") (by decide)

/-- C3: on an initialized client, when the feature lookup raises (the name
is missing, a `KeyError`) or the feature's strategy evaluation raises,
`is_enabled` returns the supplied default value — the exception is caught at
the per-call `except` boundary, never propagated (the embedding is total) —
and the client's feature mapping is unchanged by the failed call. -/
theorem is_enabled_isolates_failures (c : UnleashClient)
    (feature_name : String) (context : Context) (default_value : Bool)
    (hinit : c.is_initialized = true)
    (hfail : alookup feature_name c.features = none ∨
      ∃ f e, alookup feature_name c.features = some f ∧
        f.is_enabled (dictUpdate context c.unleash_static_context)
          default_value = .error e) :
    (c.is_enabled feature_name context default_value).result = default_value ∧
    (c.is_enabled feature_name context default_value).client.features
      = c.features := by
  unfold UnleashClient.is_enabled
  rcases hfail with hnone | ⟨f, e, hf, herr⟩
  · simp [hinit, hnone]
  · simp [hinit, hf, herr]

/-- Closed instance of `is_enabled_isolates_failures`: a feature whose
evaluation raises yields the default `false` and leaves the features dict
untouched. -/
theorem is_enabled_isolates_failures_witness :
    (test_client.is_enabled "f1" [] false).result = false ∧
    (test_client.is_enabled "f1" [] false).client.features
      = test_client.features :=
  is_enabled_isolates_failures test_client "f1" [] false rfl
    (Or.inr ⟨throwing_feature, "custom strategy failure", rfl, rfl⟩)

/-- C4: before `initialize_client` has completed (`is_initialized` still
false), `is_enabled` returns the supplied default value for every feature
name and context. -/
theorem is_enabled_uninitialized_default (c : UnleashClient)
    (feature_name : String) (context : Context) (default_value : Bool)
    (h : c.is_initialized = false) :
    (c.is_enabled feature_name context default_value).result
      = default_value := by
  unfold UnleashClient.is_enabled
  simp [h]

/-- Closed instance of `is_enabled_uninitialized_default` on a freshly
constructed client. -/
theorem is_enabled_uninitialized_default_witness :
    (fresh_client.is_enabled "f1" [] true).result = true :=
  is_enabled_uninitialized_default fresh_client "f1" [] true rfl

/-- C5: on an initialized client, `is_enabled` on a feature name absent from
the feature mapping returns the supplied default value (the `KeyError` of
`self.features[feature_name]` is caught; the embedding is total, so nothing
is raised to the caller). -/
theorem is_enabled_unknown_feature_default (c : UnleashClient)
    (feature_name : String) (context : Context) (default_value : Bool)
    (hinit : c.is_initialized = true)
    (habsent : alookup feature_name c.features = none) :
    (c.is_enabled feature_name context default_value).result
      = default_value := by
  unfold UnleashClient.is_enabled
  simp [hinit, habsent]

/-- Closed instance of `is_enabled_unknown_feature_default`. -/
theorem is_enabled_unknown_feature_default_witness :
    (test_client.is_enabled "no-such-feature" [] true).result = true :=
  is_enabled_unknown_feature_default test_client "no-such-feature" [] true
    rfl rfl

/-- C6: `is_enabled` merges the static context into the supplied context
before evaluation (the merged dict is both the one handed to the feature's
evaluation and the one the call leaves behind), and on conflict the static
values win: the merged context maps `"appName"` to the client's app name and
`"environment"` to the client's environment, whatever the caller supplied
under those keys. -/
theorem is_enabled_static_context_wins
    (url app_name environment instance_id : String)
    (refresh_interval metrics_interval : Nat)
    (disable_metrics disable_registration : Bool)
    (custom_strategies : PyDict StrategyRef)
    (prior_cache : PyDict Nat) (now : Nat)
    (feature_name : String) (context : Context) (default_value : Bool) :
    ((mkUnleashClient url app_name environment instance_id refresh_interval
        metrics_interval disable_metrics disable_registration
        custom_strategies prior_cache now).is_enabled feature_name context
        default_value).context
      = dictUpdate context
          [("appName", app_name), ("environment", environment)] ∧
    alookup "appName"
      (dictUpdate context [("appName", app_name), ("environment", environment)])
      = some app_name ∧
    alookup "environment"
      (dictUpdate context [("appName", app_name), ("environment", environment)])
      = some environment := by
  exact ⟨is_enabled_context_eq _ _ _ _,
    alookup_update_static context app_name environment⟩

/-- C7 counterexample: `initialize_client` is not idempotent.  On a fresh
client with registration enabled, the first call succeeds and registers the
client once; the second call performs the registration side effect again
(two registration events in total, where idempotence demands one) and then
raises `SchedulerAlreadyRunningError` from `self.scheduler.start()` — there
is no `is_initialized` guard. -/
theorem initialize_client_twice_counterexample :
    (fresh_client.initialize_client []).1 = .ok () ∧
    (fresh_client.initialize_client []).2.registrations = 1 ∧
    ((fresh_client.initialize_client []).2.initialize_client []).1
      = .error "SchedulerAlreadyRunningError" ∧
    ((fresh_client.initialize_client []).2.initialize_client
      []).2.registrations = 2 := by
  exact ⟨rfl, rfl, rfl, rfl⟩

/-- C7 amended: `initialize_client` is not idempotent.  Whenever a first
call succeeds, a second call on the resulting client (with registration
enabled) repeats the registration side effect — leaving two registration
events on the client where one call leaves one — and then raises
`SchedulerAlreadyRunningError` from `self.scheduler.start()`, since nothing
guards on `is_initialized`. -/
theorem initialize_client_second_call_raises (c : UnleashClient)
    (f₁ f₂ : PyDict Feature)
    (h : (c.initialize_client f₁).1 = .ok ())
    (hreg : c.unleash_disable_registration = false) :
    ((c.initialize_client f₁).2.initialize_client f₂).1
      = .error "SchedulerAlreadyRunningError" ∧
    ((c.initialize_client f₁).2.initialize_client f₂).2.registrations
      = c.registrations + 2 := by
  unfold UnleashClient.initialize_client at h ⊢
  by_cases hr : c.scheduler.running
  · simp only [hr, if_true] at h
    exact absurd h (by simp)
  · simp only [hr, if_false, Bool.false_eq_true] at h ⊢
    simp [hreg]

/-- Closed instance of `initialize_client_second_call_raises` on a fresh
client. -/
theorem initialize_client_second_call_raises_witness :
    ((fresh_client.initialize_client []).2.initialize_client []).1
      = .error "SchedulerAlreadyRunningError" ∧
    ((fresh_client.initialize_client []).2.initialize_client
      []).2.registrations = fresh_client.registrations + 2 :=
  initialize_client_second_call_raises fresh_client [] [] rfl rfl

/-- C8: at construction the durable cache entry for the last-metrics-sent
timestamp is set to the current time (line 68, synced to disk on line 69),
whatever value the persisted cache held from before the restart. -/
theorem construction_resets_metric_last_sent_time
    (url app_name environment instance_id : String)
    (refresh_interval metrics_interval : Nat)
    (disable_metrics disable_registration : Bool)
    (custom_strategies : PyDict StrategyRef)
    (prior_cache : PyDict Nat) (now : Nat) :
    alookup METRIC_LAST_SENT_TIME
      (mkUnleashClient url app_name environment instance_id refresh_interval
        metrics_interval disable_metrics disable_registration
        custom_strategies prior_cache now).cache = some now := by
  show alookup METRIC_LAST_SENT_TIME
    (dictSet prior_cache METRIC_LAST_SENT_TIME now) = some now
  exact alookup_dictSet_self _ _ _

/-- C9: every `is_enabled` call mutates the caller-supplied context dict in
place — afterwards it holds `"appName"` and `"environment"` bound to the
client's static values — and, because the `context={}` default argument is a
single shared dict, a call that omits `context` leaves those bindings in the
shared default dict, where they persist for later calls. -/
theorem is_enabled_mutates_caller_context
    (url app_name environment instance_id : String)
    (refresh_interval metrics_interval : Nat)
    (disable_metrics disable_registration : Bool)
    (custom_strategies : PyDict StrategyRef)
    (prior_cache : PyDict Nat) (now : Nat)
    (feature_name : String) (context : Context) (default_value : Bool)
    (w : PyWorld) :
    (alookup "appName"
        ((mkUnleashClient url app_name environment instance_id
          refresh_interval metrics_interval disable_metrics
          disable_registration custom_strategies prior_cache
          now).is_enabled feature_name context default_value).context
        = some app_name ∧
      alookup "environment"
        ((mkUnleashClient url app_name environment instance_id
          refresh_interval metrics_interval disable_metrics
          disable_registration custom_strategies prior_cache
          now).is_enabled feature_name context default_value).context
        = some environment) ∧
    (alookup "appName"
        ((mkUnleashClient url app_name environment instance_id
          refresh_interval metrics_interval disable_metrics
          disable_registration custom_strategies prior_cache
          now).is_enabled_nocontext w feature_name
          default_value).2.1.is_enabled_default_context
        = some app_name ∧
      alookup "environment"
        ((mkUnleashClient url app_name environment instance_id
          refresh_interval metrics_interval disable_metrics
          disable_registration custom_strategies prior_cache
          now).is_enabled_nocontext w feature_name
          default_value).2.1.is_enabled_default_context
        = some environment) := by
  constructor
  · rw [is_enabled_context_eq]
    exact alookup_update_static context app_name environment
  · show alookup "appName"
        ((mkUnleashClient url app_name environment instance_id
          refresh_interval metrics_interval disable_metrics
          disable_registration custom_strategies prior_cache
          now).is_enabled feature_name w.is_enabled_default_context
          default_value).context = some app_name ∧ _
    rw [is_enabled_context_eq]
    exact alookup_update_static w.is_enabled_default_context app_name
      environment

/-- C10: calling `destroy` on a client whose `initialize_client` has never
run raises: `self.fl_job` is still `None`, so `self.fl_job.remove()` raises
`AttributeError`.  Every freshly constructed client is in that state, so
completed initialization is a precondition of `destroy`. -/
theorem destroy_before_initialize_raises
    (url app_name environment instance_id : String)
    (refresh_interval metrics_interval : Nat)
    (disable_metrics disable_registration : Bool)
    (custom_strategies : PyDict StrategyRef)
    (prior_cache : PyDict Nat) (now : Nat) :
    (mkUnleashClient url app_name environment instance_id refresh_interval
      metrics_interval disable_metrics disable_registration custom_strategies
      prior_cache now).destroy
      = .error "AttributeError: NoneType object has no attribute remove" :=
  rfl
